import Mathlib

/-!
# Sidebar (dipradmin/src/components/sidebar/Sidebar.jsx)

A shallow embedding of the active `Sidebar` component (source lines 146-258):
the role flags, the conditional list of `Menu.Item` children, the menu-level
click handler, `handleLogout` and the `onOk` callback of the logout dialog.

The three collaborators the component talks to are modelled as explicit state:

* `localStorage` is a finite key/value store (`Storage`),
* the router holds the current `pathname`, and `navigate` replaces it,
* `Modal.confirm` opens a dialog described by the options it was given.

Every call made to a collaborator is appended to `World.log`, oldest first, so
that the order and the number of the calls can be stated.
-/

namespace Dipradmin

/-! ## localStorage -/

/-- The browser key/value store: a finite list of bindings, first match wins. -/
abbrev Storage := List (String × String)

/-- `localStorage.getItem(key)`: the stored string, `none` for JavaScript `null`. -/
def Storage.getItem (s : Storage) (key : String) : Option String :=
  (s.find? (fun kv => kv.1 == key)).map Prod.snd

/-- `localStorage.removeItem(key)`: the binding of `key` is dropped. -/
def Storage.removeItem (s : Storage) (key : String) : Storage :=
  s.filter (fun kv => kv.1 != key)

/-! ## Role flags (source lines 151-154) -/

/-- `role === "admin" || role === "moderator"`. -/
def isAdminOrModerator (role : Option String) : Bool :=
  role == some "admin" || role == some "moderator"

/-- `role === "content"`. -/
def isContentRole (role : Option String) : Bool :=
  role == some "content"

/-- `isAdminOrModerator || isContentRole`. -/
def canViewContent (role : Option String) : Bool :=
  isAdminOrModerator role || isContentRole role

/-! ## The rendered menu (source lines 190-255) -/

/-- One `Menu.Item`: its `key`, its `icon` component (when given) and the text
it shows (for the last item, the text of the button it wraps). -/
structure MenuItem where
  key : String
  icon : Option String
  label : String
  deriving DecidableEq

/-- The rendered `Menu`: the `selectedKeys` prop and the children actually
rendered, in document order. -/
structure Menu where
  selectedKeys : List String
  items : List MenuItem
  deriving DecidableEq

/-- JSX `{cond && children}`: the children when `cond` holds, nothing otherwise. -/
def renderIf (cond : Bool) (children : List MenuItem) : List MenuItem :=
  if cond then children else []

/-- The fragment of seven content items (source lines 211-233). -/
def contentItems : List MenuItem :=
  [ { key := "/manage-articles", icon := some "FileOutlined", label := "Articles" },
    { key := "/manage-magazines1", icon := some "BookOutlined", label := "March of Karnataka" },
    { key := "/manage-magazines2", icon := some "BookOutlined", label := "Vartha Janapada" },
    { key := "/manage-banners", icon := some "BookOutlined", label := "Banners" },
    { key := "/manage-shortvideos", icon := some "VideoCameraOutlined", label := "Short Videos" },
    { key := "/manage-longvideo", icon := some "VideoCameraAddOutlined", label := "Long Videos" },
    { key := "/manage-notifications", icon := some "VideoCameraAddOutlined",
      label := "Notifications" } ]

/-- The last item, `<Menu.Item key="login">`, wrapping the Logout button. -/
def logoutItem : MenuItem :=
  { key := "login", icon := none, label := "Logout" }

/-- The children of `<Menu>` for a given role, in source order. -/
def menuChildren (role : Option String) : List MenuItem :=
  renderIf (isAdminOrModerator role)
      [{ key := "/dashboard", icon := some "HomeOutlined", label := "Dashboard" }]
    ++ renderIf (isAdminOrModerator role)
      [{ key := "/manage-users", icon := some "UsergroupDeleteOutlined", label := "Users" }]
    ++ renderIf (canViewContent role) contentItems
    ++ renderIf (isAdminOrModerator role)
      [{ key := "/manage-moderation", icon := some "VideoCameraAddOutlined",
         label := "Moderation" }]
    ++ [logoutItem]

/-- One render of the component: `role` is read from `localStorage`,
`currentPath` is `location.pathname`, and the menu gets
`selectedKeys={[currentPath]}`. -/
def Sidebar (localStorage : Storage) (currentPath : String) : Menu :=
  let role := localStorage.getItem "role"
  { selectedKeys := [currentPath], items := menuChildren role }

/-- The keys of the rendered items, in order. -/
def Menu.renderedKeys (m : Menu) : List String :=
  m.items.map MenuItem.key

/-- The highlighted items: the menu marks a rendered item as selected when its
key occurs in `selectedKeys`. -/
def Menu.highlighted (m : Menu) : List MenuItem :=
  m.items.filter (fun i => m.selectedKeys.contains i.key)

/-! ## Collaborator calls and the world they act on -/

/-- The options object handed to `Modal.confirm` (source lines 158-163). -/
structure ModalOptions where
  title : String
  content : String
  okText : String
  cancelText : String
  okType : String
  centered : Bool
  deriving DecidableEq

/-- A call made by the component to one of its collaborators. -/
inductive Call where
  | removeItem (key : String)
  | navigate (path : String)
  | confirm (options : ModalOptions)
  deriving DecidableEq

/-- What the component can observe and change: the store, the current path,
the dialog that is open (if any), and the calls made so far. -/
structure World where
  localStorage : Storage
  pathname : String
  modal : Option ModalOptions
  log : List Call
  deriving DecidableEq

/-- `localStorage.removeItem(key)` as a step of the world. -/
def removeItem (key : String) (w : World) : World :=
  { w with localStorage := w.localStorage.removeItem key,
           log := w.log ++ [Call.removeItem key] }

/-- `navigate(path)`: the call is recorded and the router makes `path` the
current path. The component passes absolute paths only: the keys of the items
other than Logout, and "/login". -/
def navigate (path : String) (w : World) : World :=
  { w with pathname := path, log := w.log ++ [Call.navigate path] }

/-- `Modal.confirm(options)`: the dialog opens; nothing else changes. -/
def Modal.confirm (options : ModalOptions) (w : World) : World :=
  { w with modal := some options, log := w.log ++ [Call.confirm options] }

/-! ## Handlers -/

/-- The `onOk` callback of the logout dialog (source lines 164-168). -/
def onOk (w : World) : World :=
  navigate "/login" (removeItem "role" (removeItem "token" w))

/-- The options of the logout dialog (source lines 158-163). -/
def logoutOptions : ModalOptions :=
  { title := "Confirm Logout",
    content := "Are you sure you want to logout?",
    okText := "Logout",
    cancelText := "Cancel",
    okType := "danger",
    centered := true }

/-- `handleLogout` (source lines 156-170): it only opens the dialog. -/
def handleLogout (w : World) : World :=
  Modal.confirm logoutOptions w

/-- The `onClick` of `<Menu>` (source lines 194-196). -/
def menuOnClick (key : String) (w : World) : World :=
  if key != "login" then navigate key w else w

/-- A click on the Logout button: the button's own `onClick` runs
`handleLogout`, then the click bubbles to the enclosing item and reaches the
menu-level handler with that item's key. -/
def onLogoutClick (w : World) : World :=
  menuOnClick logoutItem.key (handleLogout w)

/-- The Cancel button of an open dialog: the dialog closes, no callback was
registered for it. -/
def Modal.cancel (w : World) : World :=
  { w with modal := none }

/-- The OK button of an open dialog: `onOk` runs and the dialog closes. The
component opens a single kind of dialog, whose callback is `onOk`. -/
def Modal.ok (w : World) : World :=
  match w.modal with
  | some _ => onOk { w with modal := none }
  | none => w

/-- The arguments of the `navigate` calls in a list of calls, in order. -/
def navigateTargets (calls : List Call) : List String :=
  calls.filterMap (fun c => match c with
    | Call.navigate path => some path
    | _ => none)

/-- The keys of the `removeItem` calls in a list of calls, in order. -/
def removedKeys (calls : List Call) : List String :=
  calls.filterMap (fun c => match c with
    | Call.removeItem key => some key
    | _ => none)

/-- The eleven keys of the menu items in the source, in source order. -/
def menuKeys : List String :=
  ["/dashboard", "/manage-users", "/manage-articles", "/manage-magazines1",
   "/manage-magazines2", "/manage-banners", "/manage-shortvideos", "/manage-longvideo",
   "/manage-notifications", "/manage-moderation", "login"]

/-- The path list of the interface section of the specification. -/
def specPaths : List String :=
  ["/dashboard", "/manage-users", "/manage-articles", "/manage-magazines1",
   "/manage-magazines2", "/manage-banners", "/manage-shortvideos", "/manage-longvideo",
   "/manage-notifications", "/manage-moderation", "/login"]

/-! ## Lemmas about the store -/

theorem Storage.getItem_removeItem (s : Storage) (key k : String) :
    (s.removeItem key).getItem k = if k = key then none else s.getItem k := by
  induction s with
  | nil => simp [Storage.removeItem, Storage.getItem]
  | cons kv s ih =>
    simp only [Storage.removeItem, Storage.getItem] at ih ⊢
    by_cases h1 : kv.1 = key
    · by_cases h2 : k = key
      · simp [List.filter_cons, h1, h2]
      · have h3 : ¬ key = k := fun h => h2 h.symm
        simpa [List.filter_cons, List.find?_cons, h1, h2, h3] using ih
    · by_cases h2 : k = key
      · simp [List.filter_cons, h1, h2]
      · by_cases h3 : kv.1 = k
        · simp [List.filter_cons, List.find?_cons, h1, h2, h3]
        · simpa [List.filter_cons, List.find?_cons, h1, h2, h3] using ih

theorem Storage.removeItem_removeItem_self (s : Storage) (a b : String) :
    (((s.removeItem a).removeItem b).removeItem a).removeItem b
      = (s.removeItem a).removeItem b := by
  simp only [Storage.removeItem, List.filter_filter]
  apply List.filter_congr
  intro kv _
  cases (kv.1 != a) <;> cases (kv.1 != b) <;> rfl

/-! ## Lemmas about the children of the menu -/

theorem menuChildren_admin : menuChildren (some "admin") =
    [ { key := "/dashboard", icon := some "HomeOutlined", label := "Dashboard" },
      { key := "/manage-users", icon := some "UsergroupDeleteOutlined", label := "Users" } ]
    ++ contentItems
    ++ [ { key := "/manage-moderation", icon := some "VideoCameraAddOutlined",
           label := "Moderation" }, logoutItem ] := by
  decide

theorem menuChildren_moderator :
    menuChildren (some "moderator") = menuChildren (some "admin") := by
  decide

theorem menuChildren_content :
    menuChildren (some "content") = contentItems ++ [logoutItem] := by
  decide

theorem menuChildren_other (role : Option String) (h1 : role ≠ some "admin")
    (h2 : role ≠ some "moderator") (h3 : role ≠ some "content") :
    menuChildren role = [logoutItem] := by
  simp [menuChildren, renderIf, canViewContent, isAdminOrModerator, isContentRole, h1, h2, h3]

/-- Whatever the role, the children are one of three lists. -/
theorem menuChildren_cases (role : Option String) :
    menuChildren role = menuChildren (some "admin")
      ∨ menuChildren role = menuChildren (some "content")
      ∨ menuChildren role = [logoutItem] := by
  by_cases h1 : role = some "admin"
  · left; rw [h1]
  by_cases h2 : role = some "moderator"
  · left; rw [h2, menuChildren_moderator]
  by_cases h3 : role = some "content"
  · right; left; rw [h3]
  · right; right; exact menuChildren_other role h1 h2 h3

/-- Every rendered key is one of the eleven keys of the source. -/
theorem renderedKeys_subset_menuKeys (role : Option String) :
    ∀ k ∈ (menuChildren role).map MenuItem.key, k ∈ menuKeys := by
  rcases menuChildren_cases role with h | h | h <;> rw [h] <;> decide

/-- The rendered keys are pairwise distinct. -/
theorem renderedKeys_nodup (role : Option String) :
    ((menuChildren role).map MenuItem.key).Nodup := by
  rcases menuChildren_cases role with h | h | h <;> rw [h] <;> decide

/-- None of the eleven keys is an initial segment of another one. -/
theorem menuKeys_no_initial_segment :
    ∀ k ∈ menuKeys, ∀ k2 ∈ menuKeys, k.data <+: k2.data → k = k2 := by
  decide

/-- A key followed by a non-empty suffix is not a key. -/
theorem key_append_not_menuKey (k t : String) (hk : k ∈ menuKeys) (ht : t ≠ "") :
    k ++ t ∉ menuKeys := by
  intro hmem
  have hpre : k.data <+: (k ++ t).data := by
    rw [String.data_append]
    exact List.prefix_append _ _
  have heq : k = k ++ t := menuKeys_no_initial_segment k hk (k ++ t) hmem hpre
  have hdata : k.data ++ [] = k.data ++ t.data := by
    rw [List.append_nil, ← String.data_append, ← heq]
  have ht2 : t.data = [] := (List.append_cancel_left hdata).symm
  exact ht (String.ext ht2)

/-- With `selectedKeys = [p]`, the highlighted items are those whose key is `p`. -/
theorem highlighted_eq_filter (localStorage : Storage) (p : String) :
    (Sidebar localStorage p).highlighted
      = (Sidebar localStorage p).items.filter (fun i => decide (i.key = p)) := by
  simp only [Menu.highlighted, Sidebar]
  apply List.filter_congr
  intro i _
  by_cases h : i.key = p
  · simp [List.contains, List.elem, h]
  · have hb : (i.key == p) = false := beq_eq_false_iff_ne.mpr h
    simp [List.contains, List.elem, h, hb]

/-- A path that is not a rendered key highlights nothing. -/
theorem highlighted_nil_of_not_rendered (localStorage : Storage) (p : String)
    (h : p ∉ (Sidebar localStorage p).renderedKeys) :
    (Sidebar localStorage p).highlighted = [] := by
  rw [highlighted_eq_filter, List.filter_eq_nil_iff]
  intro i hi hkey
  apply h
  simp only [Menu.renderedKeys, List.mem_map]
  exact ⟨i, hi, by simpa using hkey⟩

/-! ## Visibility by role -/

/-- C1: when the role read from the store is none of "admin", "moderator",
"content" (absent, "user", "Admin", ...), then for every current path the only
item rendered is the Logout item, so the rendered key list is ["login"]. -/
theorem sidebar_unrecognized_role_only_logout (localStorage : Storage) (currentPath : String)
    (h1 : localStorage.getItem "role" ≠ some "admin")
    (h2 : localStorage.getItem "role" ≠ some "moderator")
    (h3 : localStorage.getItem "role" ≠ some "content") :
    (Sidebar localStorage currentPath).renderedKeys = ["login"]
      ∧ (Sidebar localStorage currentPath).items = [logoutItem]
      ∧ logoutItem.label = "Logout" := by
  have h := menuChildren_other _ h1 h2 h3
  refine ⟨?_, ?_, rfl⟩
  · simp only [Menu.renderedKeys, Sidebar, h]
    rfl
  · simp only [Sidebar, h]

/-- Instances of C1: an absent role, the role "user" and the case variant
"Admin" each render the key list ["login"]. -/
theorem sidebar_unrecognized_role_only_logout_witness :
    (Sidebar [("token", "t")] "/dashboard").renderedKeys = ["login"]
      ∧ (Sidebar [("role", "user")] "/manage-users").renderedKeys = ["login"]
      ∧ (Sidebar [("role", "Admin")] "/login").renderedKeys = ["login"] :=
  ⟨(sidebar_unrecognized_role_only_logout [("token", "t")] "/dashboard"
      (by decide) (by decide) (by decide)).1,
   (sidebar_unrecognized_role_only_logout [("role", "user")] "/manage-users"
      (by decide) (by decide) (by decide)).1,
   (sidebar_unrecognized_role_only_logout [("role", "Admin")] "/login"
      (by decide) (by decide) (by decide)).1⟩

/-- C2: for role "admin" and for role "moderator", and every current path, all
eleven items are rendered in the fixed order Dashboard, Users, Articles, March
of Karnataka, Vartha Janapada, Banners, Short Videos, Long Videos,
Notifications, Moderation, Logout, with the keys listed. -/
theorem sidebar_admin_or_moderator_all_entries (localStorage : Storage) (currentPath : String)
    (h : localStorage.getItem "role" = some "admin"
      ∨ localStorage.getItem "role" = some "moderator") :
    (Sidebar localStorage currentPath).renderedKeys =
        ["/dashboard", "/manage-users", "/manage-articles", "/manage-magazines1",
         "/manage-magazines2", "/manage-banners", "/manage-shortvideos",
         "/manage-longvideo", "/manage-notifications", "/manage-moderation", "login"]
      ∧ (Sidebar localStorage currentPath).items.map MenuItem.label =
        ["Dashboard", "Users", "Articles", "March of Karnataka", "Vartha Janapada",
         "Banners", "Short Videos", "Long Videos", "Notifications", "Moderation",
         "Logout"] := by
  have hc : menuChildren (localStorage.getItem "role") = menuChildren (some "admin") := by
    rcases h with h | h
    · rw [h]
    · rw [h, menuChildren_moderator]
  simp only [Menu.renderedKeys, Sidebar, hc]
  constructor <;> decide

/-- Instances of C2: a store holding role "admin" and one holding role
"moderator" both render the eleven keys in order. -/
theorem sidebar_admin_or_moderator_all_entries_witness :
    (Sidebar [("role", "admin"), ("token", "t")] "/dashboard").renderedKeys =
        ["/dashboard", "/manage-users", "/manage-articles", "/manage-magazines1",
         "/manage-magazines2", "/manage-banners", "/manage-shortvideos",
         "/manage-longvideo", "/manage-notifications", "/manage-moderation", "login"]
      ∧ (Sidebar [("token", "t"), ("role", "moderator")] "/nowhere").renderedKeys =
        ["/dashboard", "/manage-users", "/manage-articles", "/manage-magazines1",
         "/manage-magazines2", "/manage-banners", "/manage-shortvideos",
         "/manage-longvideo", "/manage-notifications", "/manage-moderation", "login"] :=
  ⟨(sidebar_admin_or_moderator_all_entries [("role", "admin"), ("token", "t")] "/dashboard"
      (Or.inl (by decide))).1,
   (sidebar_admin_or_moderator_all_entries [("token", "t"), ("role", "moderator")] "/nowhere"
      (Or.inr (by decide))).1⟩

/-- C3: for role "content" and every current path, exactly the seven content
items followed by Logout are rendered, in that order, and none of Dashboard,
Users or Moderation is rendered. -/
theorem sidebar_content_role_entries (localStorage : Storage) (currentPath : String)
    (h : localStorage.getItem "role" = some "content") :
    (Sidebar localStorage currentPath).renderedKeys =
        ["/manage-articles", "/manage-magazines1", "/manage-magazines2", "/manage-banners",
         "/manage-shortvideos", "/manage-longvideo", "/manage-notifications", "login"]
      ∧ (Sidebar localStorage currentPath).items.map MenuItem.label =
        ["Articles", "March of Karnataka", "Vartha Janapada", "Banners", "Short Videos",
         "Long Videos", "Notifications", "Logout"]
      ∧ "/dashboard" ∉ (Sidebar localStorage currentPath).renderedKeys
      ∧ "/manage-users" ∉ (Sidebar localStorage currentPath).renderedKeys
      ∧ "/manage-moderation" ∉ (Sidebar localStorage currentPath).renderedKeys
      ∧ (∀ i ∈ (Sidebar localStorage currentPath).items,
          i.label ≠ "Dashboard" ∧ i.label ≠ "Users" ∧ i.label ≠ "Moderation") := by
  simp only [Menu.renderedKeys, Sidebar, h, menuChildren_content]
  refine ⟨by decide, by decide, by decide, by decide, by decide, by decide⟩

/-- Instance of C3: a store holding role "content", at "/manage-articles". -/
theorem sidebar_content_role_entries_witness :
    (Sidebar [("token", "t"), ("role", "content")] "/manage-articles").renderedKeys =
        ["/manage-articles", "/manage-magazines1", "/manage-magazines2", "/manage-banners",
         "/manage-shortvideos", "/manage-longvideo", "/manage-notifications", "login"]
      ∧ "/dashboard" ∉
        (Sidebar [("token", "t"), ("role", "content")] "/manage-articles").renderedKeys :=
  ⟨(sidebar_content_role_entries [("token", "t"), ("role", "content")] "/manage-articles"
      (by decide)).1,
   (sidebar_content_role_entries [("token", "t"), ("role", "content")] "/manage-articles"
      (by decide)).2.2.1⟩

/-! ## Selection highlight -/

/-- C4: for every store and every current path, the highlighted items are
exactly the rendered items whose key is string-equal to the current path; at
most one item is highlighted; a path that is not a rendered key highlights
nothing, in particular a key followed by a non-empty suffix (such as
"/manage-articles/5"), the key of an item hidden for the role (role "content"
at "/dashboard") and "/login" (the Logout item has key "login"). -/
theorem sidebar_highlight_exact_match (localStorage : Storage) (currentPath : String) :
    (Sidebar localStorage currentPath).highlighted
        = (Sidebar localStorage currentPath).items.filter
            (fun i => decide (i.key = currentPath))
      ∧ (∀ i, i ∈ (Sidebar localStorage currentPath).highlighted ↔
          i ∈ (Sidebar localStorage currentPath).items ∧ i.key = currentPath)
      ∧ (Sidebar localStorage currentPath).highlighted.length ≤ 1
      ∧ (currentPath ∉ (Sidebar localStorage currentPath).renderedKeys →
          (Sidebar localStorage currentPath).highlighted = [])
      ∧ (∀ k ∈ menuKeys, ∀ t : String, t ≠ "" →
          (Sidebar localStorage (k ++ t)).highlighted = [])
      ∧ (Sidebar localStorage "/manage-articles/5").highlighted = []
      ∧ (Sidebar localStorage "/login").highlighted = []
      ∧ (localStorage.getItem "role" = some "content" →
          (Sidebar localStorage "/dashboard").highlighted = [])
      ∧ (Sidebar [("role", "content")] "/dashboard").highlighted = []
      ∧ (Sidebar [("role", "content")] "/manage-articles").highlighted
          = [{ key := "/manage-articles", icon := some "FileOutlined", label := "Articles" }]
      ∧ (Sidebar [("role", "admin")] "/manage-articles/5").highlighted = [] := by
  have hsub : ∀ p : String, p ∉ menuKeys → (Sidebar localStorage p).highlighted = [] := by
    intro p hp
    apply highlighted_nil_of_not_rendered
    intro hmem
    exact hp (renderedKeys_subset_menuKeys _ p hmem)
  refine ⟨highlighted_eq_filter _ _, ?_, ?_, highlighted_nil_of_not_rendered _ _, ?_,
    hsub _ (by decide), hsub _ (by decide), ?_, by decide, by decide, by decide⟩
  · intro i
    rw [highlighted_eq_filter, List.mem_filter]
    simp
  · rw [highlighted_eq_filter]
    have hnd := renderedKeys_nodup (localStorage.getItem "role")
    have hnd2 : ((Sidebar localStorage currentPath).items.filter
        (fun i => decide (i.key = currentPath))).map MenuItem.key
          = ((menuChildren (localStorage.getItem "role")).map MenuItem.key).filter
              (fun k => decide (k = currentPath)) := by
      simp only [Sidebar, List.filter_map]
      rfl
    have hlen := congrArg List.length hnd2
    rw [List.length_map] at hlen
    rw [hlen, ← List.countP_eq_length_filter]
    have hc := List.nodup_iff_count_le_one.mp hnd currentPath
    have hcount : List.countP (fun k => decide (k = currentPath))
        ((menuChildren (localStorage.getItem "role")).map MenuItem.key)
          = List.count currentPath
        ((menuChildren (localStorage.getItem "role")).map MenuItem.key) := by
      simp only [List.count]
      apply List.countP_congr
      intro k _
      simp
    rw [hcount]
    exact hc
  · intro k hk t ht
    exact hsub _ (key_append_not_menuKey k t hk ht)
  · intro h
    apply highlighted_nil_of_not_rendered
    simp only [Menu.renderedKeys, Sidebar, h, menuChildren_content]
    decide

/-! ## Click handlers -/

/-- C5: for every world and every menu key k, the menu-level click handler
calls navigate exactly once, with argument k, when k is not "login", and makes
no call at all when k is "login"; in both cases the store is left as it was,
so `role` and `token` keep their values. -/
theorem menuOnClick_navigates_once_unless_login (w : World) (k : String) :
    (menuOnClick k w).log = w.log ++ (if k = "login" then [] else [Call.navigate k])
      ∧ (menuOnClick "login" w) = w
      ∧ (menuOnClick k w).localStorage = w.localStorage
      ∧ (menuOnClick k w).localStorage.getItem "role" = w.localStorage.getItem "role"
      ∧ (menuOnClick k w).localStorage.getItem "token" = w.localStorage.getItem "token"
      ∧ navigateTargets (if k = "login" then [] else [Call.navigate k])
          = (if k = "login" then [] else [k])
      ∧ removedKeys (if k = "login" then [] else [Call.navigate k]) = []
      ∧ (menuOnClick k w).modal = w.modal := by
  have hlogin : menuOnClick "login" w = w := by
    simp [menuOnClick]
  by_cases h : k = "login"
  · subst h
    simp [hlogin, navigateTargets, removedKeys]
  · have hstep : menuOnClick k w = navigate k w := by
      simp [menuOnClick, h]
    simp [hlogin, hstep, navigate, h, navigateTargets, removedKeys]

/-- C6: for every world, the confirmation callback makes exactly the calls
remove "token", remove "role", navigate "/login", in that order: navigate is
issued in a world whose store holds neither `token` nor `role` and agrees with
the initial store on every other key, and it is the only navigate call. The same
holds when the callback is reached through a click on Logout followed by the
OK button of the dialog. -/
theorem onOk_removes_token_and_role_then_navigates (w : World) :
    (onOk w).log
        = w.log ++ [Call.removeItem "token", Call.removeItem "role", Call.navigate "/login"]
      ∧ onOk w = navigate "/login" (removeItem "role" (removeItem "token" w))
      ∧ (removeItem "role" (removeItem "token" w)).log
          = w.log ++ [Call.removeItem "token", Call.removeItem "role"]
      ∧ (removeItem "role" (removeItem "token" w)).localStorage.getItem "token" = none
      ∧ (removeItem "role" (removeItem "token" w)).localStorage.getItem "role" = none
      ∧ (∀ key, (removeItem "role" (removeItem "token" w)).localStorage.getItem key
          = if key = "token" ∨ key = "role" then none else w.localStorage.getItem key)
      ∧ (removeItem "role" (removeItem "token" w)).pathname = w.pathname
      ∧ (onOk w).localStorage = (removeItem "role" (removeItem "token" w)).localStorage
      ∧ (onOk w).pathname = "/login"
      ∧ navigateTargets
          [Call.removeItem "token", Call.removeItem "role", Call.navigate "/login"]
            = ["/login"]
      ∧ removedKeys
          [Call.removeItem "token", Call.removeItem "role", Call.navigate "/login"]
            = ["token", "role"]
      ∧ (Modal.ok (onLogoutClick w)).log
          = w.log ++ [Call.confirm logoutOptions, Call.removeItem "token",
                      Call.removeItem "role", Call.navigate "/login"] := by
  have hget : ∀ key, (removeItem "role" (removeItem "token" w)).localStorage.getItem key
      = if key = "token" ∨ key = "role" then none else w.localStorage.getItem key := by
    intro key
    simp only [removeItem, Storage.getItem_removeItem]
    by_cases h1 : key = "role"
    · simp [h1]
    · by_cases h2 : key = "token"
      · simp [h2]
      · simp [h1, h2]
  refine ⟨?_, rfl, ?_, ?_, ?_, hget, rfl, rfl, rfl, by decide, by decide, ?_⟩
  · simp [onOk, navigate, removeItem]
  · simp [removeItem]
  · rw [hget]; simp
  · rw [hget]; simp
  · simp [Modal.ok, onLogoutClick, menuOnClick, logoutItem, handleLogout, Modal.confirm,
      onOk, navigate, removeItem]

/-- C7: for every world, a click on Logout (the button handler followed by the
bubbled menu-level click with key "login") calls `Modal.confirm` exactly once,
with title "Confirm Logout", content "Are you sure you want to logout?", okText
"Logout", cancelText "Cancel", okType "danger" and centered true, and makes no
removeItem and no navigate call; when the dialog is then cancelled no further
call is made, and the store and the current path are what they were before the
click. -/
theorem onLogoutClick_only_opens_confirm_dialog (w : World) :
    (onLogoutClick w).log
        = w.log ++ [Call.confirm
            { title := "Confirm Logout",
              content := "Are you sure you want to logout?",
              okText := "Logout",
              cancelText := "Cancel",
              okType := "danger",
              centered := true }]
      ∧ onLogoutClick w = handleLogout w
      ∧ (onLogoutClick w).modal = some logoutOptions
      ∧ (onLogoutClick w).localStorage = w.localStorage
      ∧ (onLogoutClick w).pathname = w.pathname
      ∧ navigateTargets [Call.confirm logoutOptions] = []
      ∧ removedKeys [Call.confirm logoutOptions] = []
      ∧ (Modal.cancel (onLogoutClick w)).log = (onLogoutClick w).log
      ∧ (Modal.cancel (onLogoutClick w)).localStorage = w.localStorage
      ∧ (Modal.cancel (onLogoutClick w)).pathname = w.pathname
      ∧ (Modal.cancel (onLogoutClick w)).modal = none := by
  have h : onLogoutClick w = handleLogout w := by
    simp [onLogoutClick, menuOnClick, logoutItem]
  refine ⟨?_, h, ?_, ?_, ?_, by decide, by decide, rfl, ?_, ?_, rfl⟩ <;>
    simp [h, handleLogout, Modal.confirm, Modal.cancel, logoutOptions]

/-! ## The menu depends on the role and the path only -/

/-- C8: two stores that hold the same `role` value render, at the same current
path, the same menu: the same ordered list of items, the same `selectedKeys`
and the same highlighted items, whatever `token` and the other keys hold. -/
theorem sidebar_depends_only_on_role_and_path (s1 s2 : Storage) (currentPath : String)
    (h : s1.getItem "role" = s2.getItem "role") :
    Sidebar s1 currentPath = Sidebar s2 currentPath
      ∧ (Sidebar s1 currentPath).items = (Sidebar s2 currentPath).items
      ∧ (Sidebar s1 currentPath).renderedKeys = (Sidebar s2 currentPath).renderedKeys
      ∧ (Sidebar s1 currentPath).highlighted = (Sidebar s2 currentPath).highlighted := by
  have hm : Sidebar s1 currentPath = Sidebar s2 currentPath := by
    simp only [Sidebar, h]
  exact ⟨hm, by rw [hm], by rw [hm], by rw [hm]⟩

/-- Instance of C8: role "admin" with a token, and role "admin" with another
token and a further key, at "/manage-users". -/
theorem sidebar_depends_only_on_role_and_path_witness :
    Sidebar [("token", "abc"), ("role", "admin")] "/manage-users"
      = Sidebar [("role", "admin"), ("theme", "dark"), ("token", "")] "/manage-users" :=
  (sidebar_depends_only_on_role_and_path [("token", "abc"), ("role", "admin")]
    [("role", "admin"), ("theme", "dark"), ("token", "")] "/manage-users" (by decide)).1

/-! ## The keys of the menu -/

/-- C9, as stated, fails: for role "admin" the Logout item is rendered with key
"login", which is not in the listed paths, and the listed path "/login" is the
key of no rendered item. -/
theorem sidebar_keys_not_spec_paths :
    Storage.getItem [("role", "admin")] "role" = some "admin"
      ∧ "login" ∈ (Sidebar [("role", "admin")] "/dashboard").renderedKeys
      ∧ "login" ∉ specPaths
      ∧ "/login" ∈ specPaths
      ∧ "/login" ∉ (Sidebar [("role", "admin")] "/dashboard").renderedKeys
      ∧ ¬ (∀ (s : Storage) (p : String), ∀ k ∈ (Sidebar s p).renderedKeys, k ∈ specPaths)
      ∧ ¬ (∀ (s : Storage) (p : String), s.getItem "role" = some "admin" →
            ∀ k ∈ specPaths, k ∈ (Sidebar s p).renderedKeys) := by
  refine ⟨by decide, by decide, by decide, by decide, by decide, ?_, ?_⟩
  · intro h
    exact absurd (h [("role", "admin")] "/dashboard" "login" (by decide)) (by decide)
  · intro h
    exact absurd (h [("role", "admin")] "/dashboard" (by decide) "/login" (by decide))
      (by decide)

/-- C9, amended: the menu keys are the ten listed paths from "/dashboard" to
"/manage-moderation" together with "login" (no leading slash): for every role
the key of every rendered item is in that list, for role "admin" every member
of the list is a rendered key, the Logout item has key "login", and "/login" is
the key of no rendered item; it is the argument of the navigate call of the
confirmation callback. -/
theorem sidebar_keys_are_menuKeys (localStorage : Storage) (currentPath : String) :
    menuKeys = ["/dashboard", "/manage-users", "/manage-articles", "/manage-magazines1",
        "/manage-magazines2", "/manage-banners", "/manage-shortvideos",
        "/manage-longvideo", "/manage-notifications", "/manage-moderation", "login"]
      ∧ (∀ k ∈ (Sidebar localStorage currentPath).renderedKeys, k ∈ menuKeys)
      ∧ (localStorage.getItem "role" = some "admin" →
          ∀ k ∈ menuKeys, k ∈ (Sidebar localStorage currentPath).renderedKeys)
      ∧ (∀ k ∈ menuKeys, k ∈ (Sidebar [("role", "admin")] currentPath).renderedKeys)
      ∧ logoutItem ∈ (Sidebar localStorage currentPath).items
      ∧ logoutItem.key = "login"
      ∧ "/login" ∉ (Sidebar localStorage currentPath).renderedKeys
      ∧ navigateTargets (onOk ⟨localStorage, currentPath, none, []⟩).log = ["/login"] := by
  have hadmin : (menuChildren (some "admin")).map MenuItem.key = menuKeys := by decide
  refine ⟨rfl, renderedKeys_subset_menuKeys _, ?_, ?_, ?_, rfl, ?_, ?_⟩
  · intro h k hk
    simp only [Menu.renderedKeys, Sidebar, h, hadmin]
    exact hk
  · intro k hk
    have hr : Storage.getItem [("role", "admin")] "role" = some "admin" := by decide
    simp only [Menu.renderedKeys, Sidebar, hr, hadmin]
    exact hk
  · simp [Sidebar, menuChildren]
  · intro hmem
    exact absurd (renderedKeys_subset_menuKeys _ _ hmem) (by decide)
  · simp [onOk, navigate, removeItem, navigateTargets]

/-! ## Logout revokes the menu -/

/-- C10: for every world, rendering the component in the world that results
from the confirmation callback (no `role`, no `token`, current path "/login")
yields exactly one item, the Logout item with key "login", and no highlighted
item; and running the callback a second time leaves that store and that path
unchanged. -/
theorem onOk_revokes_menu_and_is_idempotent (w : World) :
    (onOk w).localStorage.getItem "role" = none
      ∧ (onOk w).localStorage.getItem "token" = none
      ∧ (onOk w).pathname = "/login"
      ∧ (Sidebar (onOk w).localStorage (onOk w).pathname).items = [logoutItem]
      ∧ (Sidebar (onOk w).localStorage (onOk w).pathname).renderedKeys = ["login"]
      ∧ (Sidebar (onOk w).localStorage (onOk w).pathname).highlighted = []
      ∧ (onOk (onOk w)).localStorage = (onOk w).localStorage
      ∧ (onOk (onOk w)).pathname = (onOk w).pathname := by
  have hrole : (onOk w).localStorage.getItem "role" = none := by
    simp [onOk, navigate, removeItem, Storage.getItem_removeItem]
  have htoken : (onOk w).localStorage.getItem "token" = none := by
    simp [onOk, navigate, removeItem, Storage.getItem_removeItem]
  have hitems : ∀ p, (Sidebar (onOk w).localStorage p).items = [logoutItem] := by
    intro p
    simp only [Sidebar, hrole]
    decide
  have hpath : (onOk w).pathname = "/login" := rfl
  refine ⟨hrole, htoken, hpath, hitems _, ?_, ?_, ?_, rfl⟩
  · simp only [Menu.renderedKeys, hitems]
    rfl
  · have hh := highlighted_nil_of_not_rendered (onOk w).localStorage "/login"
    rw [hpath]
    apply hh
    simp only [Menu.renderedKeys, hitems]
    decide
  · simp only [onOk, navigate, removeItem]
    exact Storage.removeItem_removeItem_self _ _ _

end Dipradmin
